import Mathlib

/-
Verification of the kit_sch scheduler core
(cfs/apps/kit_sch/fsw/src/scheduler.c).

The C file is shallowly embedded below.  Machine integers (uint16/uint32)
are modelled as Nat; every theorem that depends on wrap-around behaviour
carries explicit range hypotheses that keep the Nat computation equal to
the uint32 computation in the C source.  External collaborators (OSAL
timers, the software bus, cFE TIME, events) are modelled as oracle inputs:
the message lookup and transmission pipeline of a dispatch is a function
sendOk : Nat -> Bool from the message table index to the combined
success of MSGTBL_GetMsgPtr and CFE_SB_TransmitMsg, the MET clock reading
is a microSeconds input, and the cFE TIME flywheel flag is a Bool input.
Event sends, timer reprogramming and semaphore give/take have no effect on
the scheduler state and are dropped.

Compile-time configuration constants (SCHTBL_SLOTS and friends) live in
headers that are not part of the provided source; they are modelled as a
configuration record passed to every operation.
-/

/-- One schedule table entry (SCHTBL_Entry from schtbl.h): an activity with
an enable flag, a period and offset measured in table passes, and an index
into the message table. -/
structure SCHTBL_Entry where
  enabled : Bool
  period : Nat
  offset : Nat
  msgTblIndex : Nat
deriving DecidableEq

/-- Value of an untouched schedule table entry: disabled, all fields zero.
Reading outside the table yields this entry, which can never dispatch. -/
def SCHTBL_DefaultEntry : SCHTBL_Entry :=
  { enabled := false, period := 0, offset := 0, msgTblIndex := 0 }

/-- Modelled from the spec: the SyncToMET bit flags (SCHEDULER_SYNCH_FALSE,
SCHEDULER_SYNCH_TO_MINOR, SCHEDULER_SYNCH_TO_MAJOR,
SCHEDULER_SYNCH_MAJOR_PENDING are defined in scheduler.h, which is not under
the provided source).  The spec describes SyncToMET as the flag set
{SYNC_MINOR, SYNC_MAJOR, MAJOR_PENDING}; it is modelled as a record of three
Booleans. -/
structure SyncFlags where
  toMinor : Bool
  toMajor : Bool
  majorPending : Bool
deriving DecidableEq

/-- SyncToMET == SCHEDULER_SYNCH_FALSE: no flag is set. -/
def SyncFlags.isFalse (f : SyncFlags) : Bool :=
  !f.toMinor && !f.toMajor && !f.majorPending

/-- SyncToMET == SCHEDULER_SYNCH_TO_MINOR: exactly the minor-frame flag. -/
def SyncFlags.isOnlyMinor (f : SyncFlags) : Bool :=
  f.toMinor && !f.toMajor && !f.majorPending

/-- Major frame source enumeration (SCHEDULER_MF_SRC_NONE,
SCHEDULER_MF_SOURCE_CFE_TIME, SCHEDULER_MF_SOURCE_MINOR_FRAME_TIMER). -/
inductive MajorFrameSource where
  | srcNone
  | cfeTime
  | minorFrameTimer
deriving DecidableEq

/-- Modelled from the spec: compile-time configuration constants of
scheduler.h / schtbl.h / msgtbl.h, which are not under the provided source.
The spec treats them as configured values (SlotCount, ActivitiesPerSlot,
the lag and throughput limits, the noisy-frame threshold, the nominal slot
period in microseconds, and the MET sync attempt budget). -/
structure SCHEDULER_Config where
  schtblSlots : Nat
  activitiesPerSlot : Nat
  maxLagCount : Nat
  maxSlotsPerWakeup : Nat
  maxNoisyMF : Nat
  normalSlotPeriod : Nat
  maxSyncAttempts : Nat
deriving DecidableEq

/-- Modelled from the spec: SCHEDULER_TIME_SYNC_SLOT is defined in
scheduler.h, not under the provided source.  Both the spec and the comments
in scheduler.c state that the time sync slot is the LAST slot of the
schedule table. -/
def SCHEDULER_Config.timeSyncSlot (cfg : SCHEDULER_Config) : Nat :=
  cfg.schtblSlots - 1

/-- The scheduler state (SCHEDULER_Class of scheduler.h, restricted to the
fields that the embedded operations read or write).  The message table is
kept as opaque word buffers; the core never interprets them. -/
structure SCHEDULER_Class where
  slotsProcessedCount : Nat
  skippedSlotsCount : Nat
  multipleSlotsCount : Nat
  sameSlotCount : Nat
  scheduleActivitySuccessCount : Nat
  scheduleActivityFailureCount : Nat
  validMajorFrameCount : Nat
  missedMajorFrameCount : Nat
  unexpectedMajorFrameCount : Nat
  tablePassCount : Nat
  consecutiveNoisyFrameCounter : Nat
  ignoreMajorFrame : Bool
  sendNoisyMajorFrameMsg : Bool
  unexpectedMajorFrame : Bool
  syncToMET : SyncFlags
  majorFrameSource : MajorFrameSource
  nextSlotNumber : Nat
  minorFramesSinceTone : Nat
  lastSyncMETSlot : Nat
  syncAttemptsLeft : Nat
  lastProcessCount : Nat
  worstCaseSlotsPerMinorFrame : Nat
  schTbl : List SCHTBL_Entry
  msgTbl : List (List Nat)
deriving DecidableEq

/-- CFE_SUCCESS status code. -/
def CFE_SUCCESS : Int := 0

/-- SCHEDULER_ResetStatus (scheduler.c lines 157-173): zero the diagnostic
counters, the table pass counter and the consecutive noisy frame counter,
and clear IgnoreMajorFrame. -/
def SCHEDULER_ResetStatus (s : SCHEDULER_Class) : SCHEDULER_Class :=
  { s with
    slotsProcessedCount := 0
    skippedSlotsCount := 0
    multipleSlotsCount := 0
    sameSlotCount := 0
    scheduleActivitySuccessCount := 0
    scheduleActivityFailureCount := 0
    validMajorFrameCount := 0
    missedMajorFrameCount := 0
    unexpectedMajorFrameCount := 0
    tablePassCount := 0
    consecutiveNoisyFrameCounter := 0
    ignoreMajorFrame := false }

/-- SCHTBL_GetEntryIndex (schtbl.c, signature used by scheduler.c): maps a
(slot, activity) command pair to a flat table index, rejecting out-of-range
pairs.  The flat index is slot * ActivitiesPerSlot + activity, matching the
SCHTBL_INDEX macro used throughout scheduler.c. -/
def SCHTBL_GetEntryIndex (cfg : SCHEDULER_Config) (slot activity : Nat) :
    Option Nat :=
  if slot < cfg.schtblSlots && activity < cfg.activitiesPerSlot then
    some (slot * cfg.activitiesPerSlot + activity)
  else
    none

/-- Modelled from the spec: SCHTBL_ValidEntry is defined in schtbl.c, which
is not under the provided source.  The spec requires that a valid entry
satisfies Offset < Period with Period >= 1, and that enabling an entry must
be rejected when this fails.  The enabled flag and the message table index
are passed through as in the C call but do not constrain validity beyond
the spec sentence being checked. -/
def SCHTBL_ValidEntry (_enabled : Bool) (period offset _msgTblIndex : Nat) :
    Bool :=
  decide (1 ≤ period) && decide (offset < period)

/-- SCHEDULER_ConfigSchEntryCmd (scheduler.c lines 180-233): enable or
disable one schedule table entry.  Enabling re-validates the stored entry;
disabling is always accepted.  Returns the new state and the command
status.  CMDMGR_ValidBoolArg always holds here because the commanded value
is already a Bool in the embedding. -/
def SCHEDULER_ConfigSchEntryCmd (cfg : SCHEDULER_Config)
    (s : SCHEDULER_Class) (slot activity : Nat) (enabled : Bool) :
    SCHEDULER_Class × Bool :=
  match SCHTBL_GetEntryIndex cfg slot activity with
  | none => (s, false)
  | some index =>
    let entry := s.schTbl.getD index SCHTBL_DefaultEntry
    let retStatus :=
      if enabled then
        SCHTBL_ValidEntry entry.enabled entry.period entry.offset
          entry.msgTblIndex
      else
        true
    if retStatus then
      ({ s with schTbl := s.schTbl.set index { entry with enabled := enabled } },
       true)
    else
      (s, false)

/-- SCHEDULER_LoadSchEntryCmd (scheduler.c lines 242-275): load one full
schedule table entry from a command, after validating the commanded
fields. -/
def SCHEDULER_LoadSchEntryCmd (cfg : SCHEDULER_Config)
    (s : SCHEDULER_Class) (slot activity : Nat) (newEntry : SCHTBL_Entry) :
    SCHEDULER_Class × Bool :=
  match SCHTBL_GetEntryIndex cfg slot activity with
  | none => (s, false)
  | some index =>
    if SCHTBL_ValidEntry newEntry.enabled newEntry.period newEntry.offset
        newEntry.msgTblIndex then
      ({ s with schTbl := s.schTbl.set index newEntry }, true)
    else
      (s, false)

/-- SCHEDULER_LoadSchTblEntry (scheduler.c lines 626-633): copy one entry
into the schedule table.  The C function is a plain memcpy; its comment
states that range checking is not performed on the parameters, and no
validity check is made. -/
def SCHEDULER_LoadSchTblEntry (s : SCHEDULER_Class) (entryId : Nat)
    (newEntry : SCHTBL_Entry) : SCHEDULER_Class × Bool :=
  ({ s with schTbl := s.schTbl.set entryId newEntry }, true)

/-- GetMETSlotNumber (scheduler.c lines 1139-1183) as a function of the
microseconds value obtained from CFE_TIME_GetMETsubsecs via
CFE_TIME_Sub2MicroSecs: integer-divide by the nominal slot period, nudge by
one microsecond to round up at a period boundary, and wrap to zero when the
result equals the slot count. -/
def GetMETSlotNumber (cfg : SCHEDULER_Config) (microSeconds : Nat) : Nat :=
  let metSlot := microSeconds / cfg.normalSlotPeriod
  let remainder := microSeconds - metSlot * cfg.normalSlotPeriod
  let remainder := remainder + 1
  let metSlot := metSlot + remainder / cfg.normalSlotPeriod
  if metSlot == cfg.schtblSlots then 0 else metSlot

/-- GetCurrentSlotNumber (scheduler.c lines 1100-1132): when synchronized to
MET, rebase the MET slot by the slot recorded at the last sync signal,
wrapping by adding SCHTBL_SLOTS before subtracting when the difference
would be negative; otherwise return the free-running minor frame
counter. -/
def GetCurrentSlotNumber (cfg : SCHEDULER_Config) (microSeconds : Nat)
    (s : SCHEDULER_Class) : Nat :=
  if !s.syncToMET.isFalse then
    let currentSlot := GetMETSlotNumber cfg microSeconds
    if currentSlot < s.lastSyncMETSlot then
      currentSlot + cfg.schtblSlots - s.lastSyncMETSlot
    else
      currentSlot - s.lastSyncMETSlot
  else
    s.minorFramesSinceTone

/-- Condition under which ProcessNextSlot fires an entry (scheduler.c lines
1207-1211): the entry is enabled and TablePassCount mod Period equals
Offset. -/
def SCHEDULER_EntryFires (tablePassCount : Nat) (e : SCHTBL_Entry) : Bool :=
  e.enabled && (tablePassCount % e.period == e.offset)

/-- Condition under which a fired entry is counted as a failed activity
(scheduler.c lines 1215-1236): it fires but the message lookup or the
transmission fails. -/
def SCHEDULER_EntryFails (sendOk : Nat → Bool) (tablePassCount : Nat)
    (e : SCHTBL_Entry) : Bool :=
  SCHEDULER_EntryFires tablePassCount e && !(sendOk e.msgTblIndex)

/-- Body of the activity loop of ProcessNextSlot for a single entry
(scheduler.c lines 1207-1240): if the entry is enabled and its phase
condition holds, attempt the dispatch; on success bump the success counter,
on failure disable the entry and bump the failure counter.  Returns the new
state and the list of message table indices for which a dispatch was
attempted. -/
def ProcessSlotEntry (sendOk : Nat → Bool) (s : SCHEDULER_Class)
    (index : Nat) : SCHEDULER_Class × List Nat :=
  let entry := s.schTbl.getD index SCHTBL_DefaultEntry
  if entry.enabled then
    if s.tablePassCount % entry.period == entry.offset then
      if sendOk entry.msgTblIndex then
        ({ s with
            scheduleActivitySuccessCount :=
              s.scheduleActivitySuccessCount + 1 },
         [entry.msgTblIndex])
      else
        ({ s with
            schTbl := s.schTbl.set index { entry with enabled := false }
            scheduleActivityFailureCount :=
              s.scheduleActivityFailureCount + 1 },
         [entry.msgTblIndex])
    else
      (s, [])
  else
    (s, [])

/-- The activity loop of ProcessNextSlot (scheduler.c lines 1205-1244): the
first argument is the flat index of the entry the NextEntry pointer is at,
the second the number of entries still to process. -/
def ProcessSlotLoop (sendOk : Nat → Bool) :
    Nat → Nat → SCHEDULER_Class → SCHEDULER_Class × List Nat
  | _, 0, s => (s, [])
  | index, k + 1, s =>
    let r := ProcessSlotEntry sendOk s index
    let rest := ProcessSlotLoop sendOk (index + 1) k r.1
    (rest.1, r.2 ++ rest.2)

/-- Result of one ProcessNextSlot call: new state, the message table
indices whose dispatch was attempted, and the returned status. -/
structure SlotResult where
  st : SCHEDULER_Class
  dispatched : List Nat
  result : Int
deriving DecidableEq

/-- ProcessNextSlot (scheduler.c lines 1190-1268): run the activity loop
over the slot at NextSlotNumber, then advance NextSlotNumber, increment
TablePassCount on rollover to zero, and bump the slots-processed counter.
The C Result variable is initialized to CFE_SUCCESS and never reassigned,
so the returned status is always CFE_SUCCESS. -/
def ProcessNextSlot (cfg : SCHEDULER_Config) (sendOk : Nat → Bool)
    (s : SCHEDULER_Class) : SlotResult :=
  let slotIndex := s.nextSlotNumber * cfg.activitiesPerSlot
  let r := ProcessSlotLoop sendOk slotIndex cfg.activitiesPerSlot s
  let s2 := { r.1 with nextSlotNumber := r.1.nextSlotNumber + 1 }
  let s3 :=
    if s2.nextSlotNumber == cfg.schtblSlots then
      { s2 with nextSlotNumber := 0, tablePassCount := s2.tablePassCount + 1 }
    else
      s2
  { st := { s3 with slotsProcessedCount := s3.slotsProcessedCount + 1 }
    dispatched := r.2
    result := CFE_SUCCESS }

/-- Result of one SCHEDULER_Execute wakeup: final state, all attempted
dispatches, the slot numbers processed in order, and the success flag. -/
structure ExecResult where
  st : SCHEDULER_Class
  dispatched : List Nat
  slots : List Nat
  success : Bool
deriving DecidableEq

/-- The slot processing loop at the end of SCHEDULER_Execute (scheduler.c
lines 835-839): call ProcessNextSlot ProcessCount times, stopping early if
a call reports a non-success result. -/
def ExecLoop (cfg : SCHEDULER_Config) (sendOk : Nat → Bool) :
    Nat → SCHEDULER_Class → ExecResult
  | 0, s => { st := s, dispatched := [], slots := [], success := true }
  | k + 1, s =>
    let r := ProcessNextSlot cfg sendOk s
    if r.result == CFE_SUCCESS then
      let rest := ExecLoop cfg sendOk k r.st
      { st := rest.st
        dispatched := r.dispatched ++ rest.dispatched
        slots := s.nextSlotNumber :: rest.slots
        success := rest.success }
    else
      { st := r.st, dispatched := r.dispatched,
        slots := [s.nextSlotNumber], success := false }

/-- The noisy major frame one-shot diagnostic logic at the top of
SCHEDULER_Execute (scheduler.c lines 693-706): when ignoring the major
frame, clear the send-noisy-message flag after the first diagnostic;
otherwise re-arm it. -/
def ExecuteNoisyStage (s : SCHEDULER_Class) : SCHEDULER_Class :=
  if s.ignoreMajorFrame then
    if s.sendNoisyMajorFrameMsg then
      { s with sendNoisyMajorFrameMsg := false }
    else
      s
  else
    { s with sendNoisyMajorFrameMsg := true }

/-- The initial slot count computation of SCHEDULER_Execute (scheduler.c
lines 711-719): the number of slots from NextSlotNumber up to and
including CurrentSlot, accounting for table rollover. -/
def InitialProcessCount (cfg : SCHEDULER_Config)
    (currentSlot nextSlot : Nat) : Nat :=
  if currentSlot < nextSlot then
    cfg.schtblSlots - nextSlot + (currentSlot + 1)
  else
    currentSlot - nextSlot + 1

/-- The jitter-corrected process count of SCHEDULER_Execute (scheduler.c
lines 733-761): a count of 2 after a previous count of 1 collapses to 1,
and a count of SCHTBL_SLOTS after a previous count other than SCHTBL_SLOTS
collapses to 1. -/
def JitterProcessCount (cfg : SCHEDULER_Config) (pc last : Nat) : Nat :=
  if pc == 2 then
    if last == 1 then 1 else pc
  else if pc == cfg.schtblSlots then
    if last != cfg.schtblSlots then 1 else pc
  else
    pc

/-- The value recorded into LastProcessCount by the jitter correction of
SCHEDULER_Execute (scheduler.c lines 733-761). -/
def JitterLastCount (cfg : SCHEDULER_Config) (pc _last : Nat) : Nat :=
  if pc == 2 then 2
  else if pc == cfg.schtblSlots then cfg.schtblSlots
  else pc

/-- The same-slot adjustment of SCHEDULER_Execute (scheduler.c lines
766-774): a jitter-corrected count of SCHTBL_SLOTS means the slot did not
increment, so nothing is processed this wakeup. -/
def SameSlotProcessCount (cfg : SCHEDULER_Config) (pc : Nat) : Nat :=
  if pc == cfg.schtblSlots then 0 else pc

/-- SCHEDULER_Execute up to but excluding the slot processing loop
(scheduler.c lines 693-833): the noisy one-shot stage, the slot clock
query, the initial count, the jitter correction, the same-slot adjustment,
the lag limit, the throughput cap and the multi-slot accounting.  Returns
the state as of line 834 together with the final ProcessCount. -/
def ExecutePreLoop (cfg : SCHEDULER_Config) (microSeconds : Nat)
    (s0 : SCHEDULER_Class) : SCHEDULER_Class × Nat :=
  let s := ExecuteNoisyStage s0
  let currentSlot := GetCurrentSlotNumber cfg microSeconds s
  let pc0 := InitialProcessCount cfg currentSlot s.nextSlotNumber
  let pc1 := JitterProcessCount cfg pc0 s.lastProcessCount
  let s1 := { s with lastProcessCount := JitterLastCount cfg pc0 s.lastProcessCount }
  let s2 :=
    if pc1 == cfg.schtblSlots then
      { s1 with sameSlotCount := s1.sameSlotCount + 1 }
    else
      s1
  let pc2 := SameSlotProcessCount cfg pc1
  let s3 :=
    if pc2 > cfg.maxLagCount then
      let sA := { s2 with skippedSlotsCount := s2.skippedSlotsCount + 1 }
      let sB :=
        if currentSlot < sA.nextSlotNumber then
          { sA with tablePassCount := sA.tablePassCount + 1 }
        else
          sA
      { sB with nextSlotNumber := currentSlot }
    else
      s2
  let pc3 := if pc2 > cfg.maxLagCount then 1 else pc2
  let pc4 := if pc3 > cfg.maxSlotsPerWakeup then cfg.maxSlotsPerWakeup else pc3
  let s4 :=
    if pc4 > 1 then
      { s3 with multipleSlotsCount := s3.multipleSlotsCount + 1 }
    else
      s3
  (s4, pc4)

/-- SCHEDULER_Execute (scheduler.c lines 679-845), modelling the path where
the semaphore take succeeds: the pre-loop policy followed by ProcessCount
calls to ProcessNextSlot. -/
def SCHEDULER_Execute (cfg : SCHEDULER_Config) (microSeconds : Nat)
    (sendOk : Nat → Bool) (s : SCHEDULER_Class) : ExecResult :=
  let pre := ExecutePreLoop cfg microSeconds s
  ExecLoop cfg sendOk pre.2 pre.1

/-- The noisy classification of a major frame signal (scheduler.c lines
882-886): noisy when not MET-synchronized and the tone arrives away from
the time sync slot, or when minor-frame MET-synchronized and the next slot
is neither zero nor within the worst-case window at the end of the
table. -/
def MajorFrameNoisy (cfg : SCHEDULER_Config) (s : SCHEDULER_Class) : Bool :=
  (s.syncToMET.isFalse &&
    (s.minorFramesSinceTone != cfg.timeSyncSlot)) ||
  (s.syncToMET.isOnlyMinor &&
    (s.nextSlotNumber != 0) &&
    decide (s.nextSlotNumber <
      cfg.schtblSlots - s.worstCaseSlotsPerMinorFrame - 1))

/-- MajorFrameCallback (scheduler.c lines 852-970) as a function of the
flywheel flag reported by CFE_TIME_GetClockInfo and the MET microseconds
reading.  Timer reprogramming and the semaphore give are external effects
and do not change the scheduler state. -/
def MajorFrameCallback (cfg : SCHEDULER_Config) (flywheel : Bool)
    (microSeconds : Nat) (s0 : SCHEDULER_Class) : SCHEDULER_Class :=
  let s :=
    if !flywheel then
      let s1 :=
        if MajorFrameNoisy cfg s0 then
          let sA := { s0 with
                      unexpectedMajorFrame := true
                      unexpectedMajorFrameCount :=
                        s0.unexpectedMajorFrameCount + 1 }
          if !sA.ignoreMajorFrame then
            let sB := { sA with
                        consecutiveNoisyFrameCounter :=
                          sA.consecutiveNoisyFrameCounter + 1 }
            if sB.consecutiveNoisyFrameCounter ≥ cfg.maxNoisyMF then
              { sB with ignoreMajorFrame := true }
            else
              sB
          else
            sA
        else
          { s0 with
            unexpectedMajorFrame := false
            consecutiveNoisyFrameCounter := 0 }
      if s1.ignoreMajorFrame == false then
        { s1 with
          validMajorFrameCount := s1.validMajorFrameCount + 1
          minorFramesSinceTone := 0
          majorFrameSource := MajorFrameSource.cfeTime
          syncToMET := { s1.syncToMET with toMajor := false, majorPending := false } }
      else
        s1
    else
      s0
  { s with lastSyncMETSlot := GetMETSlotNumber cfg microSeconds }

/-- The rollover and missed major frame handling at the end of
MinorFrameCallback (scheduler.c lines 1051-1066). -/
def MinorFrameTail (cfg : SCHEDULER_Config) (s : SCHEDULER_Class) :
    SCHEDULER_Class :=
  if s.minorFramesSinceTone ≥ cfg.schtblSlots then
    { s with
      minorFramesSinceTone := 0
      missedMajorFrameCount := s.missedMajorFrameCount + 1 }
  else
    s

/-- MinorFrameCallback (scheduler.c lines 977-1093) as a function of the
MET microseconds reading.  Timer reprogramming and the semaphore give are
external effects and do not change the scheduler state. -/
def MinorFrameCallback (cfg : SCHEDULER_Config) (microSeconds : Nat)
    (s0 : SCHEDULER_Class) : SCHEDULER_Class :=
  let s1 :=
    if s0.majorFrameSource == MajorFrameSource.srcNone then
      { s0 with
        majorFrameSource := MajorFrameSource.minorFrameTimer
        syncToMET := { s0.syncToMET with majorPending := true }
        syncAttemptsLeft := cfg.maxSyncAttempts
        lastSyncMETSlot := 0 }
    else
      s0
  if s1.syncToMET.majorPending &&
      (s1.majorFrameSource == MajorFrameSource.minorFrameTimer) then
    let s2 := { s1 with syncAttemptsLeft := s1.syncAttemptsLeft - 1 }
    let currentSlot := GetMETSlotNumber cfg microSeconds
    if (currentSlot != 0) && decide (s2.syncAttemptsLeft > 0) then
      s2
    else
      MinorFrameTail cfg
        { s2 with
          syncToMET := { s2.syncToMET with majorPending := false, toMajor := true }
          minorFramesSinceTone := currentSlot
          lastSyncMETSlot := 0 }
  else
    MinorFrameTail cfg
      { s1 with minorFramesSinceTone := s1.minorFramesSinceTone + 1 }

/-- A baseline scheduler state for concrete inputs: all counters zero, no
synchronization, empty tables. -/
def BaseState : SCHEDULER_Class :=
  { slotsProcessedCount := 0, skippedSlotsCount := 0, multipleSlotsCount := 0
    sameSlotCount := 0, scheduleActivitySuccessCount := 0
    scheduleActivityFailureCount := 0, validMajorFrameCount := 0
    missedMajorFrameCount := 0, unexpectedMajorFrameCount := 0
    tablePassCount := 0, consecutiveNoisyFrameCounter := 0
    ignoreMajorFrame := false, sendNoisyMajorFrameMsg := true
    unexpectedMajorFrame := false
    syncToMET := { toMinor := false, toMajor := false, majorPending := false }
    majorFrameSource := MajorFrameSource.srcNone
    nextSlotNumber := 0, minorFramesSinceTone := 0, lastSyncMETSlot := 0
    syncAttemptsLeft := 0, lastProcessCount := 0
    worstCaseSlotsPerMinorFrame := 1, schTbl := [], msgTbl := [] }

/-- A concrete configuration with 100 slots of 5 activities, matching the
slot count used by the worked examples in the spec. -/
def Cfg100 : SCHEDULER_Config :=
  { schtblSlots := 100, activitiesPerSlot := 5, maxLagCount := 50
    maxSlotsPerWakeup := 5, maxNoisyMF := 3, normalSlotPeriod := 10000
    maxSyncAttempts := 100 }

/-- Concrete state for the rollover wakeup example: the next slot to
process is 98 while the slot clock reads 1, with a fully populated but
inactive schedule table. -/
def RolloverState : SCHEDULER_Class :=
  { BaseState with
    nextSlotNumber := 98
    minorFramesSinceTone := 1
    schTbl := List.replicate 500 SCHTBL_DefaultEntry }

/-- An invalid schedule table entry: enabled with Offset >= Period. -/
def BadEntry : SCHTBL_Entry :=
  { enabled := true, period := 1, offset := 5, msgTblIndex := 0 }

/-- A state whose schedule table holds a single default entry. -/
def OneEntryState : SCHEDULER_Class :=
  { BaseState with schTbl := [SCHTBL_DefaultEntry] }

/-- An enabled activity with Period 4 and Offset 1, dispatching message
table entry 7. -/
def EntryP4O1 : SCHTBL_Entry :=
  { enabled := true, period := 4, offset := 1, msgTblIndex := 7 }

/-- A small concrete configuration: 3 slots of one activity each. -/
def Cfg1 : SCHEDULER_Config :=
  { schtblSlots := 3, activitiesPerSlot := 1, maxLagCount := 2
    maxSlotsPerWakeup := 1, maxNoisyMF := 2, normalSlotPeriod := 10000
    maxSyncAttempts := 10 }

/-- A state holding the Period 4 / Offset 1 activity on a pass where it
fires. -/
def C7State : SCHEDULER_Class :=
  { BaseState with schTbl := [EntryP4O1], tablePassCount := 1 }

/-- A state already latched into ignoring the major frame. -/
def IgnoredFrameState : SCHEDULER_Class :=
  { BaseState with ignoreMajorFrame := true }

/-- A state one slot behind the clock after a previous single-slot wakeup:
slot clock reads 6 while the next slot to process is 5. -/
def JitterState : SCHEDULER_Class :=
  { BaseState with
    nextSlotNumber := 5
    minorFramesSinceTone := 6
    lastProcessCount := 1 }

/-- Same position as JitterState but after a recorded two-slot wakeup. -/
def JitterStateB : SCHEDULER_Class :=
  { BaseState with
    nextSlotNumber := 5
    minorFramesSinceTone := 6
    lastProcessCount := 2 }

/-- A state far behind the clock: the slot clock reads 60 while the next
slot to process is 0, exceeding the lag limit of Cfg100. -/
def LaggedState : SCHEDULER_Class :=
  { BaseState with minorFramesSinceTone := 60 }

/-- Closed form of one ProcessSlotEntry step: the state changes only in the
schedule table (the entry is disabled exactly when it fires and the
dispatch fails) and in the success and failure counters, and a dispatch is
attempted exactly when the entry fires. -/
theorem processSlotEntry_spec (sendOk : Nat → Bool) (s : SCHEDULER_Class)
    (index : Nat) :
    (ProcessSlotEntry sendOk s index).1 =
      { s with
        schTbl :=
          if SCHEDULER_EntryFails sendOk s.tablePassCount
              (s.schTbl.getD index SCHTBL_DefaultEntry) then
            s.schTbl.set index
              { s.schTbl.getD index SCHTBL_DefaultEntry with enabled := false }
          else
            s.schTbl
        scheduleActivitySuccessCount := s.scheduleActivitySuccessCount +
          (if SCHEDULER_EntryFires s.tablePassCount
                (s.schTbl.getD index SCHTBL_DefaultEntry) &&
              sendOk (s.schTbl.getD index SCHTBL_DefaultEntry).msgTblIndex
           then 1 else 0)
        scheduleActivityFailureCount := s.scheduleActivityFailureCount +
          (if SCHEDULER_EntryFails sendOk s.tablePassCount
                (s.schTbl.getD index SCHTBL_DefaultEntry)
           then 1 else 0) } ∧
    (ProcessSlotEntry sendOk s index).2 =
      (if SCHEDULER_EntryFires s.tablePassCount
           (s.schTbl.getD index SCHTBL_DefaultEntry) then
         [(s.schTbl.getD index SCHTBL_DefaultEntry).msgTblIndex]
       else
         []) := by
  refine ⟨?_, ?_⟩ <;>
    (simp only [ProcessSlotEntry, SCHEDULER_EntryFails, SCHEDULER_EntryFires]
     repeat' split
     all_goals simp_all)

/-- Setting one list position does not change reads at other positions. -/
theorem getD_set_ne (l : List SCHTBL_Entry) (i j : Nat) (a d : SCHTBL_Entry)
    (h : i ≠ j) : (l.set i a).getD j d = l.getD j d := by
  simp [List.getD_eq_getElem?_getD, List.getElem?_set_ne h]

/-- Lists that agree at a position under getElem? agree under getD. -/
theorem getD_congr (l1 l2 : List SCHTBL_Entry) (j : Nat) (d : SCHTBL_Entry)
    (h : l1[j]? = l2[j]?) : l1.getD j d = l2.getD j d := by
  simp [List.getD_eq_getElem?_getD, h]

/-- Reading back the position just set, through getD: returns the written
value when the position exists and the default otherwise. -/
theorem getD_set_self (l : List SCHTBL_Entry) (i : Nat) (a d : SCHTBL_Entry) :
    (l.set i a).getD i d = (if i < l.length then a else d) := by
  simp only [List.getD_eq_getElem?_getD, List.getElem?_set_self']
  cases h : l[i]? with
  | none =>
    have hlen : l.length ≤ i := List.getElem?_eq_none_iff.mp h
    rw [if_neg (by omega)]
    rfl
  | some b =>
    have hlen : i < l.length := by
      by_contra hc
      rw [List.getElem?_eq_none (by omega)] at h
      cases h
    rw [if_pos hlen]
    rfl

/-- Unfolding equation for one step of the activity loop. -/
theorem processSlotLoop_succ (sendOk : Nat → Bool) (idx k : Nat)
    (s : SCHEDULER_Class) :
    ProcessSlotLoop sendOk idx (k + 1) s =
      ((ProcessSlotLoop sendOk (idx + 1) k (ProcessSlotEntry sendOk s idx).1).1,
       (ProcessSlotEntry sendOk s idx).2 ++
         (ProcessSlotLoop sendOk (idx + 1) k (ProcessSlotEntry sendOk s idx).1).2) :=
  rfl

/-- Closed form of the activity loop starting at entry index idx with k
entries to go: the pass counter, slot cursor and ignore flag are untouched;
table positions outside the processed window are untouched; each processed
entry is disabled exactly when it fires and its dispatch fails; the failure
counter advances by the number of failing entries; and the attempted
dispatches are the firing entries in order. -/
theorem processSlotLoop_spec (sendOk : Nat → Bool) :
    ∀ (k idx : Nat) (s : SCHEDULER_Class),
      ((ProcessSlotLoop sendOk idx k s).1.tablePassCount = s.tablePassCount) ∧
      ((ProcessSlotLoop sendOk idx k s).1.nextSlotNumber = s.nextSlotNumber) ∧
      ((ProcessSlotLoop sendOk idx k s).1.ignoreMajorFrame =
        s.ignoreMajorFrame) ∧
      (∀ j, (∀ m, m < k → j ≠ idx + m) →
        (ProcessSlotLoop sendOk idx k s).1.schTbl[j]? = s.schTbl[j]?) ∧
      (∀ m, m < k →
        (ProcessSlotLoop sendOk idx k s).1.schTbl.getD (idx + m)
            SCHTBL_DefaultEntry =
          (if SCHEDULER_EntryFails sendOk s.tablePassCount
              (s.schTbl.getD (idx + m) SCHTBL_DefaultEntry) then
            { s.schTbl.getD (idx + m) SCHTBL_DefaultEntry with
              enabled := false }
          else
            s.schTbl.getD (idx + m) SCHTBL_DefaultEntry)) ∧
      ((ProcessSlotLoop sendOk idx k s).1.scheduleActivityFailureCount =
        s.scheduleActivityFailureCount +
          (List.range k).countP (fun m =>
            SCHEDULER_EntryFails sendOk s.tablePassCount
              (s.schTbl.getD (idx + m) SCHTBL_DefaultEntry))) ∧
      ((ProcessSlotLoop sendOk idx k s).2 =
        (List.range k).filterMap (fun m =>
          if SCHEDULER_EntryFires s.tablePassCount
              (s.schTbl.getD (idx + m) SCHTBL_DefaultEntry) then
            some (s.schTbl.getD (idx + m) SCHTBL_DefaultEntry).msgTblIndex
          else
            none)) := by
  intro k
  induction k with
  | zero =>
    intro idx s
    exact ⟨rfl, rfl, rfl, fun j _ => rfl,
      fun m hm => absurd hm (by omega),
      by simp [ProcessSlotLoop],
      by simp [ProcessSlotLoop]⟩
  | succ k ih =>
    intro idx s
    obtain ⟨hr1, hr2⟩ := processSlotEntry_spec sendOk s idx
    set r := ProcessSlotEntry sendOk s idx with hrdef
    set e0 := s.schTbl.getD idx SCHTBL_DefaultEntry with he0def
    have htp : r.1.tablePassCount = s.tablePassCount := by rw [hr1]
    have hns : r.1.nextSlotNumber = s.nextSlotNumber := by rw [hr1]
    have hig : r.1.ignoreMajorFrame = s.ignoreMajorFrame := by rw [hr1]
    have hfail : r.1.scheduleActivityFailureCount =
        s.scheduleActivityFailureCount +
          (if SCHEDULER_EntryFails sendOk s.tablePassCount e0 then 1 else 0) := by
      rw [hr1]
    have htblne : ∀ j, j ≠ idx → r.1.schTbl[j]? = s.schTbl[j]? := by
      intro j hj
      rw [hr1]
      dsimp only
      split
      · exact List.getElem?_set_ne (Ne.symm hj)
      · rfl
    have htblat : r.1.schTbl.getD idx SCHTBL_DefaultEntry =
        (if SCHEDULER_EntryFails sendOk s.tablePassCount e0 then
          { e0 with enabled := false }
        else
          e0) := by
      rw [hr1]
      dsimp only
      split
      · rw [getD_set_self]
        split
        · rfl
        · have hnone : s.schTbl[idx]? = none := List.getElem?_eq_none (by omega)
          rw [he0def, List.getD_eq_getElem?_getD, hnone]
          rfl
      · rfl
    obtain ⟨ihtp, ihns, ihig, ihne, ihat, ihfail, ihtrace⟩ := ih (idx + 1) r.1
    have hgetDtrans : ∀ m : Nat, r.1.schTbl.getD (idx + 1 + m) SCHTBL_DefaultEntry =
        s.schTbl.getD (idx + 1 + m) SCHTBL_DefaultEntry := by
      intro m
      exact getD_congr _ _ _ _ (htblne (idx + 1 + m) (by omega))
    rw [processSlotLoop_succ]
    dsimp only
    rw [← hrdef]
    refine ⟨?_, ?_, ?_, ?_, ?_, ?_, ?_⟩
    · rw [ihtp, htp]
    · rw [ihns, hns]
    · rw [ihig, hig]
    · intro j hj
      have hj0 : j ≠ idx := by
        have := hj 0 (by omega)
        omega
      have hjs : ∀ m, m < k → j ≠ idx + 1 + m := by
        intro m hm
        have := hj (m + 1) (by omega)
        omega
      calc (ProcessSlotLoop sendOk (idx + 1) k r.1).1.schTbl[j]?
          = r.1.schTbl[j]? := ihne j hjs
        _ = s.schTbl[j]? := htblne j hj0
    · intro m hm
      cases m with
      | zero =>
        simp only [Nat.add_zero]
        have hpres : (ProcessSlotLoop sendOk (idx + 1) k r.1).1.schTbl[idx]? =
            r.1.schTbl[idx]? := ihne idx (by intro m2 hm2; omega)
        rw [getD_congr _ _ _ SCHTBL_DefaultEntry hpres, ← he0def]
        exact htblat
      | succ m =>
        have hidx : idx + (m + 1) = idx + 1 + m := by omega
        rw [hidx]
        have h1 := ihat m (by omega)
        rw [htp, hgetDtrans m] at h1
        exact h1
    · have hfun : ∀ m : Nat,
          SCHEDULER_EntryFails sendOk r.1.tablePassCount
            (r.1.schTbl.getD (idx + 1 + m) SCHTBL_DefaultEntry) =
          SCHEDULER_EntryFails sendOk s.tablePassCount
            (s.schTbl.getD (idx + 1 + m) SCHTBL_DefaultEntry) := by
        intro m
        rw [htp, hgetDtrans m]
      simp only [hfun] at ihfail
      rw [ihfail, hfail]
      rw [List.range_succ_eq_map, List.countP_cons, List.countP_map]
      have hidx : ∀ m : Nat, idx + 1 + m = idx + (m + 1) := by
        intro m
        omega
      simp only [hidx, Nat.add_zero, Function.comp_def, Nat.succ_eq_add_one, he0def]
      omega
    · have hfun : ∀ m : Nat,
          (if SCHEDULER_EntryFires r.1.tablePassCount
              (r.1.schTbl.getD (idx + 1 + m) SCHTBL_DefaultEntry) then
            some (r.1.schTbl.getD (idx + 1 + m) SCHTBL_DefaultEntry).msgTblIndex
          else
            (none : Option Nat)) =
          (if SCHEDULER_EntryFires s.tablePassCount
              (s.schTbl.getD (idx + 1 + m) SCHTBL_DefaultEntry) then
            some (s.schTbl.getD (idx + 1 + m) SCHTBL_DefaultEntry).msgTblIndex
          else
            none) := by
        intro m
        rw [htp, hgetDtrans m]
      simp only [hfun] at ihtrace
      rw [ihtrace, hr2]
      rw [List.range_succ_eq_map, List.filterMap_cons, List.filterMap_map]
      have hidx : ∀ m : Nat, idx + 1 + m = idx + (m + 1) := by
        intro m
        omega
      simp only [hidx, Nat.add_zero, Function.comp_def, Nat.succ_eq_add_one, ← he0def]
      cases hF : SCHEDULER_EntryFires s.tablePassCount e0 <;> simp [hF]

/-- ProcessNextSlot always reports CFE_SUCCESS: the C Result variable is
initialized to CFE_SUCCESS and never reassigned. -/
theorem processNextSlot_result (cfg : SCHEDULER_Config) (sendOk : Nat → Bool)
    (s : SCHEDULER_Class) :
    (ProcessNextSlot cfg sendOk s).result = CFE_SUCCESS :=
  rfl

/-- Closed form of one ProcessNextSlot call: the slot cursor advances by one
and wraps to zero at the slot count, the pass counter increments exactly on
the wrap, the ignore flag is untouched, the attempted dispatches are the
firing entries of the slot in order, each entry of the slot is disabled
exactly when it fires and its dispatch fails, positions outside the slot are
untouched, and the failure counter advances by the number of failing
entries. -/
theorem processNextSlot_spec (cfg : SCHEDULER_Config) (sendOk : Nat → Bool)
    (s : SCHEDULER_Class) :
    ((ProcessNextSlot cfg sendOk s).st.nextSlotNumber =
      if s.nextSlotNumber + 1 = cfg.schtblSlots then 0
      else s.nextSlotNumber + 1) ∧
    ((ProcessNextSlot cfg sendOk s).st.tablePassCount =
      s.tablePassCount +
        if s.nextSlotNumber + 1 = cfg.schtblSlots then 1 else 0) ∧
    ((ProcessNextSlot cfg sendOk s).st.ignoreMajorFrame =
      s.ignoreMajorFrame) ∧
    ((ProcessNextSlot cfg sendOk s).dispatched =
      (List.range cfg.activitiesPerSlot).filterMap (fun n =>
        if SCHEDULER_EntryFires s.tablePassCount
            (s.schTbl.getD (s.nextSlotNumber * cfg.activitiesPerSlot + n)
              SCHTBL_DefaultEntry) then
          some (s.schTbl.getD (s.nextSlotNumber * cfg.activitiesPerSlot + n)
            SCHTBL_DefaultEntry).msgTblIndex
        else
          none)) ∧
    (∀ n, n < cfg.activitiesPerSlot →
      (ProcessNextSlot cfg sendOk s).st.schTbl.getD
          (s.nextSlotNumber * cfg.activitiesPerSlot + n) SCHTBL_DefaultEntry =
        (if SCHEDULER_EntryFails sendOk s.tablePassCount
            (s.schTbl.getD (s.nextSlotNumber * cfg.activitiesPerSlot + n)
              SCHTBL_DefaultEntry) then
          { s.schTbl.getD (s.nextSlotNumber * cfg.activitiesPerSlot + n)
              SCHTBL_DefaultEntry with enabled := false }
        else
          s.schTbl.getD (s.nextSlotNumber * cfg.activitiesPerSlot + n)
            SCHTBL_DefaultEntry)) ∧
    (∀ j, (∀ n, n < cfg.activitiesPerSlot →
        j ≠ s.nextSlotNumber * cfg.activitiesPerSlot + n) →
      (ProcessNextSlot cfg sendOk s).st.schTbl[j]? = s.schTbl[j]?) ∧
    ((ProcessNextSlot cfg sendOk s).st.scheduleActivityFailureCount =
      s.scheduleActivityFailureCount +
        (List.range cfg.activitiesPerSlot).countP (fun n =>
          SCHEDULER_EntryFails sendOk s.tablePassCount
            (s.schTbl.getD (s.nextSlotNumber * cfg.activitiesPerSlot + n)
              SCHTBL_DefaultEntry))) := by
  obtain ⟨ltp, lns, lig, lne, lat, lfail, ltrace⟩ :=
    processSlotLoop_spec sendOk cfg.activitiesPerSlot
      (s.nextSlotNumber * cfg.activitiesPerSlot) s
  simp only [ProcessNextSlot]
  refine ⟨?_, ?_, ?_, ?_, ?_, ?_, ?_⟩
  · rw [lns]
    split <;> simp_all
  · rw [lns, ltp]
    split <;> simp_all
  · split <;> simp_all
  · exact ltrace
  · intro n hn
    have h1 := lat n hn
    split <;> exact h1
  · intro j hj
    have h1 := lne j hj
    split <;> exact h1
  · have h1 := lfail
    split <;> exact h1

/-- Unfolding equation for one step of the wakeup processing loop: every
ProcessNextSlot call reports success, so the loop never stops early. -/
theorem execLoop_succ (cfg : SCHEDULER_Config) (sendOk : Nat → Bool)
    (k : Nat) (s : SCHEDULER_Class) :
    ExecLoop cfg sendOk (k + 1) s =
      { st := (ExecLoop cfg sendOk k (ProcessNextSlot cfg sendOk s).st).st
        dispatched := (ProcessNextSlot cfg sendOk s).dispatched ++
          (ExecLoop cfg sendOk k (ProcessNextSlot cfg sendOk s).st).dispatched
        slots := s.nextSlotNumber ::
          (ExecLoop cfg sendOk k (ProcessNextSlot cfg sendOk s).st).slots
        success :=
          (ExecLoop cfg sendOk k (ProcessNextSlot cfg sendOk s).st).success } := by
  simp only [ExecLoop]
  rw [processNextSlot_result]
  simp

/-- The wakeup processing loop always reports success. -/
theorem execLoop_success (cfg : SCHEDULER_Config) (sendOk : Nat → Bool) :
    ∀ (n : Nat) (s : SCHEDULER_Class),
      (ExecLoop cfg sendOk n s).success = true := by
  intro n
  induction n with
  | zero => intro s; rfl
  | succ n ih =>
    intro s
    rw [execLoop_succ]
    exact ih _

/-- The wakeup processing loop never touches the ignore flag. -/
theorem execLoop_ignore (cfg : SCHEDULER_Config) (sendOk : Nat → Bool) :
    ∀ (n : Nat) (s : SCHEDULER_Class),
      (ExecLoop cfg sendOk n s).st.ignoreMajorFrame = s.ignoreMajorFrame := by
  intro n
  induction n with
  | zero => intro s; rfl
  | succ n ih =>
    intro s
    obtain ⟨-, -, hig, -, -, -, -⟩ := processNextSlot_spec cfg sendOk s
    rw [execLoop_succ]
    dsimp only
    rw [ih _, hig]

/-- One loop iteration processes exactly the slot at the cursor. -/
theorem execLoop_slots_one (cfg : SCHEDULER_Config) (sendOk : Nat → Bool)
    (t : SCHEDULER_Class) :
    (ExecLoop cfg sendOk 1 t).slots = [t.nextSlotNumber] := by
  rw [execLoop_succ]
  simp [ExecLoop]

/-- Running the processing loop from the cursor to the end of the table:
the processed slots are consecutive, the cursor ends at zero, and the pass
counter advances exactly once (when at least one slot is processed). -/
theorem execLoop_run (cfg : SCHEDULER_Config) (sendOk : Nat → Bool) :
    ∀ (m : Nat) (s : SCHEDULER_Class),
      s.nextSlotNumber + m = cfg.schtblSlots →
      ((ExecLoop cfg sendOk m s).slots = List.range' s.nextSlotNumber m) ∧
      ((ExecLoop cfg sendOk m s).st.nextSlotNumber =
        if m = 0 then s.nextSlotNumber else 0) ∧
      ((ExecLoop cfg sendOk m s).st.tablePassCount =
        s.tablePassCount + if m = 0 then 0 else 1) := by
  intro m
  induction m with
  | zero =>
    intro s h
    exact ⟨rfl, rfl, by simp [ExecLoop]⟩
  | succ m ih =>
    intro s h
    obtain ⟨hns, htp, -, -, -, -, -⟩ := processNextSlot_spec cfg sendOk s
    rw [execLoop_succ]
    dsimp only
    by_cases hm : m = 0
    · subst hm
      have hcond : s.nextSlotNumber + 1 = cfg.schtblSlots := by omega
      rw [if_pos hcond] at hns
      rw [if_pos hcond] at htp
      refine ⟨?_, ?_, ?_⟩
      · simp [ExecLoop, List.range'_one]
      · simp [ExecLoop, hns]
      · simp [ExecLoop, htp]
    · have hcond : s.nextSlotNumber + 1 ≠ cfg.schtblSlots := by omega
      rw [if_neg hcond] at hns
      rw [if_neg hcond] at htp
      obtain ⟨ihs, ihn, iht⟩ := ih (ProcessNextSlot cfg sendOk s).st (by omega)
      refine ⟨?_, ?_, ?_⟩
      · rw [ihs, hns, List.range'_succ s.nextSlotNumber m 1]
      · rw [ihn, if_neg hm]
        simp
      · rw [iht, htp, if_neg hm]
        simp

/-- The noisy one-shot stage only touches the send-noisy-message flag. -/
theorem executeNoisyStage_fields (s : SCHEDULER_Class) :
    ((ExecuteNoisyStage s).syncToMET = s.syncToMET) ∧
    ((ExecuteNoisyStage s).lastSyncMETSlot = s.lastSyncMETSlot) ∧
    ((ExecuteNoisyStage s).minorFramesSinceTone = s.minorFramesSinceTone) ∧
    ((ExecuteNoisyStage s).nextSlotNumber = s.nextSlotNumber) ∧
    ((ExecuteNoisyStage s).lastProcessCount = s.lastProcessCount) ∧
    ((ExecuteNoisyStage s).tablePassCount = s.tablePassCount) ∧
    ((ExecuteNoisyStage s).skippedSlotsCount = s.skippedSlotsCount) ∧
    ((ExecuteNoisyStage s).sameSlotCount = s.sameSlotCount) ∧
    ((ExecuteNoisyStage s).ignoreMajorFrame = s.ignoreMajorFrame) ∧
    ((ExecuteNoisyStage s).schTbl = s.schTbl) ∧
    ((ExecuteNoisyStage s).multipleSlotsCount = s.multipleSlotsCount) := by
  unfold ExecuteNoisyStage
  split <;> (try split) <;> simp

/-- The slot clock reads only fields the noisy stage leaves untouched. -/
theorem getCurrentSlot_noisyStage (cfg : SCHEDULER_Config)
    (microSeconds : Nat) (s : SCHEDULER_Class) :
    GetCurrentSlotNumber cfg microSeconds (ExecuteNoisyStage s) =
      GetCurrentSlotNumber cfg microSeconds s := by
  obtain ⟨f1, f2, f3, -⟩ := executeNoisyStage_fields s
  unfold GetCurrentSlotNumber
  rw [f1, f2, f3]

/-- Slot clock range: with all clock inputs inside the table, the returned
slot is inside the table. -/
theorem getCurrentSlot_lt (cfg : SCHEDULER_Config) (microSeconds : Nat)
    (s : SCHEDULER_Class)
    (h1 : s.minorFramesSinceTone < cfg.schtblSlots)
    (h2 : GetMETSlotNumber cfg microSeconds < cfg.schtblSlots)
    (h3 : s.lastSyncMETSlot < cfg.schtblSlots) :
    GetCurrentSlotNumber cfg microSeconds s < cfg.schtblSlots := by
  simp only [GetCurrentSlotNumber]
  split
  · split <;> omega
  · exact h1

/-- Closed form of the pre-loop policy of SCHEDULER_Execute, with the
staged process counts named by explicit equations: pc0 the initial count,
pc1 after jitter correction, pc2 after the same-slot adjustment, pc3 after
the lag limit, pc4 after the throughput cap. -/
theorem executePreLoop_spec (cfg : SCHEDULER_Config) (microSeconds : Nat)
    (s : SCHEDULER_Class) (cur pc0 pc1 pc2 pc3 pc4 : Nat)
    (hcur : cur = GetCurrentSlotNumber cfg microSeconds s)
    (h0 : pc0 = InitialProcessCount cfg cur s.nextSlotNumber)
    (h1 : pc1 = JitterProcessCount cfg pc0 s.lastProcessCount)
    (h2 : pc2 = SameSlotProcessCount cfg pc1)
    (h3 : pc3 = if pc2 > cfg.maxLagCount then 1 else pc2)
    (h4 : pc4 = if pc3 > cfg.maxSlotsPerWakeup then cfg.maxSlotsPerWakeup
      else pc3) :
    ((ExecutePreLoop cfg microSeconds s).2 = pc4) ∧
    ((ExecutePreLoop cfg microSeconds s).1.lastProcessCount =
      JitterLastCount cfg pc0 s.lastProcessCount) ∧
    ((ExecutePreLoop cfg microSeconds s).1.nextSlotNumber =
      if pc2 > cfg.maxLagCount then cur else s.nextSlotNumber) ∧
    ((ExecutePreLoop cfg microSeconds s).1.tablePassCount =
      s.tablePassCount +
        if pc2 > cfg.maxLagCount ∧ cur < s.nextSlotNumber then 1 else 0) ∧
    ((ExecutePreLoop cfg microSeconds s).1.skippedSlotsCount =
      s.skippedSlotsCount + if pc2 > cfg.maxLagCount then 1 else 0) ∧
    ((ExecutePreLoop cfg microSeconds s).1.sameSlotCount =
      s.sameSlotCount + if pc1 = cfg.schtblSlots then 1 else 0) ∧
    ((ExecutePreLoop cfg microSeconds s).1.ignoreMajorFrame =
      s.ignoreMajorFrame) ∧
    ((ExecutePreLoop cfg microSeconds s).1.schTbl = s.schTbl) ∧
    ((ExecutePreLoop cfg microSeconds s).1.multipleSlotsCount =
      s.multipleSlotsCount + if pc4 > 1 then 1 else 0) := by
  obtain ⟨f1, f2, f3, f4, f5, f6, f7, f8, f9, f10, f11⟩ :=
    executeNoisyStage_fields s
  subst h4
  subst h3
  subst h2
  subst h1
  subst h0
  subst hcur
  set cur := GetCurrentSlotNumber cfg microSeconds s with hcurdef
  set p0 := InitialProcessCount cfg cur s.nextSlotNumber with hp0
  set p1 := JitterProcessCount cfg p0 s.lastProcessCount with hp1
  set p2 := SameSlotProcessCount cfg p1 with hp2
  set jl := JitterLastCount cfg p0 s.lastProcessCount with hjl
  simp only [ExecutePreLoop, getCurrentSlot_noisyStage, f4, f5, f6, f7, f8,
    f9, f10, f11, ← hcurdef, ← hp0, ← hp1, ← hp2, ← hjl]
  simp only [apply_ite SCHEDULER_Class.lastProcessCount,
    apply_ite SCHEDULER_Class.nextSlotNumber,
    apply_ite SCHEDULER_Class.tablePassCount,
    apply_ite SCHEDULER_Class.skippedSlotsCount,
    apply_ite SCHEDULER_Class.sameSlotCount,
    apply_ite SCHEDULER_Class.ignoreMajorFrame,
    apply_ite SCHEDULER_Class.schTbl,
    apply_ite SCHEDULER_Class.multipleSlotsCount,
    ite_self]
  refine ⟨?_, ?_, ?_, ?_, ?_, ?_, ?_, ?_, ?_⟩ <;>
    (repeat' split) <;> first | trivial | omega | simp_all


/-- The processing loop records one slot number per iteration. -/
theorem execLoop_slots_length (cfg : SCHEDULER_Config) (sendOk : Nat → Bool) :
    ∀ (n : Nat) (s : SCHEDULER_Class),
      (ExecLoop cfg sendOk n s).slots.length = n := by
  intro n
  induction n with
  | zero => intro s; rfl
  | succ n ih =>
    intro s
    rw [execLoop_succ]
    simp [ih]

/-- C1 counterexample: the claim states that SCHEDULER_ResetStatus leaves
TablePassCount unchanged, but at a state with TablePassCount = 5 the reset
writes 0. -/
theorem C1_reset_changes_tablePassCount :
    (SCHEDULER_ResetStatus
        { BaseState with tablePassCount := 5 }).tablePassCount ≠
      ({ BaseState with tablePassCount := 5 } : SCHEDULER_Class).tablePassCount := by
  decide

/-- C1 (amended): SCHEDULER_ResetStatus zeroes all diagnostic counters
(SlotsProcessed, SkippedSlots, MultipleSlots, SameSlot, ActivitySuccess,
ActivityFailure, ValidMajorFrameCount, MissedMajorFrameCount,
UnexpectedMajorFrameCount, ConsecutiveNoisyFrameCounter) and also zeroes
TablePassCount, clears IgnoreMajorFrame, and leaves NextSlotNumber and the
loaded schedule and message table contents unchanged, for every scheduler
state in which it is invoked. -/
theorem C1_resetStatus_spec (s : SCHEDULER_Class) :
    ((SCHEDULER_ResetStatus s).slotsProcessedCount = 0) ∧
    ((SCHEDULER_ResetStatus s).skippedSlotsCount = 0) ∧
    ((SCHEDULER_ResetStatus s).multipleSlotsCount = 0) ∧
    ((SCHEDULER_ResetStatus s).sameSlotCount = 0) ∧
    ((SCHEDULER_ResetStatus s).scheduleActivitySuccessCount = 0) ∧
    ((SCHEDULER_ResetStatus s).scheduleActivityFailureCount = 0) ∧
    ((SCHEDULER_ResetStatus s).validMajorFrameCount = 0) ∧
    ((SCHEDULER_ResetStatus s).missedMajorFrameCount = 0) ∧
    ((SCHEDULER_ResetStatus s).unexpectedMajorFrameCount = 0) ∧
    ((SCHEDULER_ResetStatus s).consecutiveNoisyFrameCounter = 0) ∧
    ((SCHEDULER_ResetStatus s).ignoreMajorFrame = false) ∧
    ((SCHEDULER_ResetStatus s).tablePassCount = 0) ∧
    ((SCHEDULER_ResetStatus s).nextSlotNumber = s.nextSlotNumber) ∧
    ((SCHEDULER_ResetStatus s).schTbl = s.schTbl) ∧
    ((SCHEDULER_ResetStatus s).msgTbl = s.msgTbl) :=
  ⟨rfl, rfl, rfl, rfl, rfl, rfl, rfl, rfl, rfl, rfl, rfl, rfl, rfl, rfl, rfl⟩

/-- C2 counterexample: the single-entry table load accepts an entry with
Offset >= Period, stores it enabled, and reports success, so not every
mutation entry point that can enable an entry validates Offset < Period. -/
theorem C2_loadSchTblEntry_skips_validation :
    ((SCHEDULER_LoadSchTblEntry OneEntryState 0 BadEntry).2 = true) ∧
    ((SCHEDULER_LoadSchTblEntry OneEntryState 0 BadEntry).1.schTbl.getD 0
        SCHTBL_DefaultEntry = BadEntry) ∧
    (BadEntry.enabled = true) ∧
    ¬ (BadEntry.offset < BadEntry.period) := by
  decide

/-- C2 (amended): the config-entry command and the load-entry command
reject the operation, returning failure and leaving the state unchanged,
whenever the validated entry fields do not satisfy Offset < Period with
Period >= 1; the single-entry table load (SCHEDULER_LoadSchTblEntry)
performs no validation at all and unconditionally stores the entry and
reports success. -/
theorem C2_enable_validation :
    (∀ (cfg : SCHEDULER_Config) (s : SCHEDULER_Class) (slot activity i : Nat),
      SCHTBL_GetEntryIndex cfg slot activity = some i →
      SCHTBL_ValidEntry (s.schTbl.getD i SCHTBL_DefaultEntry).enabled
        (s.schTbl.getD i SCHTBL_DefaultEntry).period
        (s.schTbl.getD i SCHTBL_DefaultEntry).offset
        (s.schTbl.getD i SCHTBL_DefaultEntry).msgTblIndex = false →
      SCHEDULER_ConfigSchEntryCmd cfg s slot activity true = (s, false)) ∧
    (∀ (cfg : SCHEDULER_Config) (s : SCHEDULER_Class) (slot activity : Nat)
        (e : SCHTBL_Entry),
      SCHTBL_ValidEntry e.enabled e.period e.offset e.msgTblIndex = false →
      SCHEDULER_LoadSchEntryCmd cfg s slot activity e = (s, false)) ∧
    (∀ (s : SCHEDULER_Class) (entryId : Nat) (e : SCHTBL_Entry),
      SCHEDULER_LoadSchTblEntry s entryId e =
        ({ s with schTbl := s.schTbl.set entryId e }, true)) := by
  refine ⟨?_, ?_, fun _ _ _ => rfl⟩
  · intro cfg s slot activity i hidx hvalid
    simp only [List.getD_eq_getElem?_getD] at hvalid
    simp [SCHEDULER_ConfigSchEntryCmd, hidx, hvalid]
  · intro cfg s slot activity e hvalid
    simp [SCHEDULER_LoadSchEntryCmd, hvalid]
    split <;> rfl

/-- C2 witness: at a concrete state whose stored entry is invalid, the
config-entry command rejects enabling it. -/
theorem C2_enable_validation_witness :
    SCHEDULER_ConfigSchEntryCmd Cfg100 OneEntryState 0 0 true =
      (OneEntryState, false) :=
  C2_enable_validation.1 Cfg100 OneEntryState 0 0 0 (by decide) (by decide)

set_option maxRecDepth 40000 in
/-- C3: the initial slot count of a wakeup is CurrentSlot - NextSlotNumber
+ 1 when CurrentSlot >= NextSlotNumber, and SlotCount - NextSlotNumber +
CurrentSlot + 1 otherwise; in particular NextSlotNumber = 5, CurrentSlot =
7 yields 3, and the rollover case NextSlotNumber = 98, CurrentSlot = 1,
SlotCount = 100 yields 4, after which slots 98, 99, 0, 1 are processed,
TablePassCount increments once, and NextSlotNumber ends at 2. -/
theorem C3_process_count_rollover :
    (∀ (cfg : SCHEDULER_Config) (currentSlot nextSlot : Nat),
      InitialProcessCount cfg currentSlot nextSlot =
        if nextSlot ≤ currentSlot then currentSlot - nextSlot + 1
        else cfg.schtblSlots - nextSlot + currentSlot + 1) ∧
    (∀ cfg : SCHEDULER_Config, InitialProcessCount cfg 7 5 = 3) ∧
    ((ExecutePreLoop Cfg100 0 RolloverState).2 = 4) ∧
    ((SCHEDULER_Execute Cfg100 0 (fun _ => true) RolloverState).slots =
      [98, 99, 0, 1]) ∧
    ((SCHEDULER_Execute Cfg100 0 (fun _ => true)
        RolloverState).st.tablePassCount =
      RolloverState.tablePassCount + 1) ∧
    ((SCHEDULER_Execute Cfg100 0 (fun _ => true)
        RolloverState).st.nextSlotNumber = 2) := by
  refine ⟨?_, ?_, by decide, by decide, by decide, by decide⟩
  · intro cfg c n
    simp only [InitialProcessCount]
    rcases Nat.lt_or_ge c n with h | h
    · rw [if_pos h, if_neg (by omega)]
      omega
    · rw [if_neg (by omega), if_pos (by omega)]
  · intro cfg
    simp [InitialProcessCount]

/-- C10: the slot clock returns a value in [0, SlotCount): when not
MET-synchronized it returns MinorFramesSinceTone directly, and otherwise
the MET-derived slot minus LastSyncMETSlot, adding SlotCount before
subtracting when the difference would be negative, provided
MinorFramesSinceTone, the MET-derived slot and LastSyncMETSlot are each in
[0, SlotCount). -/
theorem C10_slot_clock_range (cfg : SCHEDULER_Config) (microSeconds : Nat)
    (s : SCHEDULER_Class)
    (h1 : s.minorFramesSinceTone < cfg.schtblSlots)
    (h2 : GetMETSlotNumber cfg microSeconds < cfg.schtblSlots)
    (h3 : s.lastSyncMETSlot < cfg.schtblSlots) :
    (GetCurrentSlotNumber cfg microSeconds s < cfg.schtblSlots) ∧
    (s.syncToMET.isFalse = true →
      GetCurrentSlotNumber cfg microSeconds s = s.minorFramesSinceTone) ∧
    (s.syncToMET.isFalse = false →
      GetCurrentSlotNumber cfg microSeconds s =
        if GetMETSlotNumber cfg microSeconds < s.lastSyncMETSlot then
          GetMETSlotNumber cfg microSeconds + cfg.schtblSlots -
            s.lastSyncMETSlot
        else
          GetMETSlotNumber cfg microSeconds - s.lastSyncMETSlot) := by
  refine ⟨getCurrentSlot_lt cfg microSeconds s h1 h2 h3, ?_, ?_⟩
  · intro hs
    simp [GetCurrentSlotNumber, hs]
  · intro hs
    simp [GetCurrentSlotNumber, hs]

/-- C10 witness: at a concrete unsynchronized state the slot clock returns
a slot inside the 100-slot table. -/
theorem C10_slot_clock_range_witness :
    GetCurrentSlotNumber Cfg100 0
        { BaseState with minorFramesSinceTone := 7 } <
      Cfg100.schtblSlots :=
  (C10_slot_clock_range Cfg100 0 { BaseState with minorFramesSinceTone := 7 }
    (by decide) (by decide) (by decide)).1

/-- C6: when the Slot Executor processes a slot, an enabled entry attempts
its dispatch exactly when TablePassCount mod Period equals Offset, disabled
entries never dispatch, and an entry with Period 4 and Offset 1 fires
exactly on the passes where TablePassCount mod 4 = 1, for every pass. -/
theorem C6_dispatch_phase_condition :
    (∀ (cfg : SCHEDULER_Config) (sendOk : Nat → Bool) (s : SCHEDULER_Class),
      (ProcessNextSlot cfg sendOk s).dispatched =
        (List.range cfg.activitiesPerSlot).filterMap (fun n =>
          if SCHEDULER_EntryFires s.tablePassCount
              (s.schTbl.getD (s.nextSlotNumber * cfg.activitiesPerSlot + n)
                SCHTBL_DefaultEntry) then
            some (s.schTbl.getD (s.nextSlotNumber * cfg.activitiesPerSlot + n)
              SCHTBL_DefaultEntry).msgTblIndex
          else
            none)) ∧
    (∀ (tablePassCount : Nat) (e : SCHTBL_Entry),
      SCHEDULER_EntryFires tablePassCount e =
        (e.enabled && (tablePassCount % e.period == e.offset))) ∧
    (∀ (tablePassCount : Nat) (e : SCHTBL_Entry),
      e.enabled = false → SCHEDULER_EntryFires tablePassCount e = false) ∧
    (∀ (p : Nat) (sendOk : Nat → Bool),
      (ProcessNextSlot Cfg1 sendOk
          { BaseState with
            schTbl := [EntryP4O1]
            tablePassCount := p }).dispatched =
        if p % 4 = 1 then [7] else []) := by
  refine ⟨?_, fun _ _ => rfl, ?_, ?_⟩
  · intro cfg sendOk s
    exact (processNextSlot_spec cfg sendOk s).2.2.2.1
  · intro tablePassCount e he
    simp [SCHEDULER_EntryFires, he]
  · intro p sendOk
    rw [(processNextSlot_spec Cfg1 sendOk _).2.2.2.1]
    simp only [Cfg1, BaseState]
    simp [SCHEDULER_EntryFires, EntryP4O1, List.range_succ,
      List.filterMap_cons]
    split <;> simp_all

/-- C6 witness: a disabled entry never dispatches. -/
theorem C6_dispatch_phase_condition_witness :
    SCHEDULER_EntryFires 5 SCHTBL_DefaultEntry = false :=
  C6_dispatch_phase_condition.2.2.1 5 SCHTBL_DefaultEntry (by decide)

/-- C7: for every entry of the processed slot, the entry is disabled
exactly when it fires and its dispatch fails (other entries of the slot and
all table positions outside the slot are unchanged), the failure counter
advances by the number of failing entries, and the failure is non-fatal:
ProcessNextSlot reports CFE_SUCCESS and SCHEDULER_Execute reports
success. -/
theorem C7_dispatch_failure_handling (cfg : SCHEDULER_Config)
    (microSeconds : Nat) (sendOk : Nat → Bool) (s : SCHEDULER_Class) :
    (∀ n, n < cfg.activitiesPerSlot →
      (ProcessNextSlot cfg sendOk s).st.schTbl.getD
          (s.nextSlotNumber * cfg.activitiesPerSlot + n) SCHTBL_DefaultEntry =
        (if SCHEDULER_EntryFails sendOk s.tablePassCount
            (s.schTbl.getD (s.nextSlotNumber * cfg.activitiesPerSlot + n)
              SCHTBL_DefaultEntry) then
          { s.schTbl.getD (s.nextSlotNumber * cfg.activitiesPerSlot + n)
              SCHTBL_DefaultEntry with enabled := false }
        else
          s.schTbl.getD (s.nextSlotNumber * cfg.activitiesPerSlot + n)
            SCHTBL_DefaultEntry)) ∧
    ((ProcessNextSlot cfg sendOk s).st.scheduleActivityFailureCount =
      s.scheduleActivityFailureCount +
        (List.range cfg.activitiesPerSlot).countP (fun n =>
          SCHEDULER_EntryFails sendOk s.tablePassCount
            (s.schTbl.getD (s.nextSlotNumber * cfg.activitiesPerSlot + n)
              SCHTBL_DefaultEntry))) ∧
    (∀ j, (∀ n, n < cfg.activitiesPerSlot →
        j ≠ s.nextSlotNumber * cfg.activitiesPerSlot + n) →
      (ProcessNextSlot cfg sendOk s).st.schTbl[j]? = s.schTbl[j]?) ∧
    ((ProcessNextSlot cfg sendOk s).result = CFE_SUCCESS) ∧
    ((SCHEDULER_Execute cfg microSeconds sendOk s).success = true) := by
  obtain ⟨-, -, -, -, hat, hne, hfail⟩ := processNextSlot_spec cfg sendOk s
  refine ⟨hat, hfail, hne, rfl, ?_⟩
  simp only [SCHEDULER_Execute]
  exact execLoop_success cfg sendOk _ _

/-- C7 witness: with a transmission oracle that always fails, the firing
entry of the processed slot ends up disabled. -/
theorem C7_dispatch_failure_handling_witness :
    (ProcessNextSlot Cfg1 (fun _ => false) C7State).st.schTbl.getD
        (C7State.nextSlotNumber * Cfg1.activitiesPerSlot + 0)
        SCHTBL_DefaultEntry =
      (if SCHEDULER_EntryFails (fun _ => false) C7State.tablePassCount
          (C7State.schTbl.getD
            (C7State.nextSlotNumber * Cfg1.activitiesPerSlot + 0)
            SCHTBL_DefaultEntry) then
        { C7State.schTbl.getD
            (C7State.nextSlotNumber * Cfg1.activitiesPerSlot + 0)
            SCHTBL_DefaultEntry with enabled := false }
      else
        C7State.schTbl.getD
          (C7State.nextSlotNumber * Cfg1.activitiesPerSlot + 0)
          SCHTBL_DefaultEntry) :=
  (C7_dispatch_failure_handling Cfg1 0 (fun _ => false) C7State).1 0
    (by decide)

/-- C8: the slot cursor NextSlotNumber stays in [0, SlotCount): the Slot
Executor advances it by exactly one modulo SlotCount and increments
TablePassCount exactly on the wrap; the Reconciler (including the lag-limit
jump) keeps the cursor in range when the clock inputs are in range; and
SlotCount consecutive executor calls starting at slot 0 process slots
0, 1, ..., SlotCount - 1 in order, increase TablePassCount by exactly one,
and return the cursor to 0. -/
theorem C8_cursor_invariant (cfg : SCHEDULER_Config) (microSeconds : Nat)
    (sendOk : Nat → Bool) (s : SCHEDULER_Class) :
    (s.nextSlotNumber < cfg.schtblSlots →
      ((ProcessNextSlot cfg sendOk s).st.nextSlotNumber =
        (s.nextSlotNumber + 1) % cfg.schtblSlots) ∧
      ((ProcessNextSlot cfg sendOk s).st.nextSlotNumber < cfg.schtblSlots) ∧
      ((ProcessNextSlot cfg sendOk s).st.tablePassCount =
        s.tablePassCount +
          if s.nextSlotNumber + 1 = cfg.schtblSlots then 1 else 0)) ∧
    (s.nextSlotNumber < cfg.schtblSlots →
      s.minorFramesSinceTone < cfg.schtblSlots →
      GetMETSlotNumber cfg microSeconds < cfg.schtblSlots →
      s.lastSyncMETSlot < cfg.schtblSlots →
      (ExecutePreLoop cfg microSeconds s).1.nextSlotNumber <
        cfg.schtblSlots) ∧
    (s.nextSlotNumber = 0 → 0 < cfg.schtblSlots →
      ((ExecLoop cfg sendOk cfg.schtblSlots s).slots =
        List.range cfg.schtblSlots) ∧
      ((ExecLoop cfg sendOk cfg.schtblSlots s).st.tablePassCount =
        s.tablePassCount + 1) ∧
      ((ExecLoop cfg sendOk cfg.schtblSlots s).st.nextSlotNumber = 0)) := by
  refine ⟨?_, ?_, ?_⟩
  · intro h
    obtain ⟨hns, htp, -, -, -, -, -⟩ := processNextSlot_spec cfg sendOk s
    by_cases heq : s.nextSlotNumber + 1 = cfg.schtblSlots
    · rw [if_pos heq] at hns htp
      refine ⟨?_, ?_, ?_⟩
      · rw [hns, heq, Nat.mod_self]
      · rw [hns]
        omega
      · rw [htp, if_pos heq]
    · rw [if_neg heq] at hns htp
      refine ⟨?_, ?_, ?_⟩
      · rw [hns, Nat.mod_eq_of_lt (by omega)]
      · rw [hns]
        omega
      · rw [htp, if_neg heq]
  · intro h h1 h2 h3
    obtain ⟨-, -, hns, -, -, -, -, -, -⟩ :=
      executePreLoop_spec cfg microSeconds s _ _ _ _ _ _ rfl rfl rfl rfl rfl
        rfl
    rw [hns]
    split
    · exact getCurrentSlot_lt cfg microSeconds s h1 h2 h3
    · exact h
  · intro h0 hpos
    obtain ⟨hs, hn, ht⟩ :=
      execLoop_run cfg sendOk cfg.schtblSlots s (by omega)
    refine ⟨?_, ?_, ?_⟩
    · rw [hs, h0, ← List.range_eq_range']
    · rw [ht, if_neg (by omega)]
    · rw [hn, if_neg (by omega)]

/-- C8 witness: three consecutive executor calls on the three-slot
configuration process slots 0, 1, 2 in order. -/
theorem C8_cursor_invariant_witness :
    (ExecLoop Cfg1 (fun _ => true) Cfg1.schtblSlots BaseState).slots =
      List.range Cfg1.schtblSlots :=
  ((C8_cursor_invariant Cfg1 0 (fun _ => true) BaseState).2.2 rfl
    (by decide)).1

/-- C4: on a wakeup computing an initial ProcessCount of 2 when the
previous recorded count was 1, the jitter correction collapses the count to
1, the Slot Executor runs exactly once, and the recorded previous count
becomes 2; a subsequent wakeup computing 2 with recorded count 2 is not
collapsed and runs the executor exactly twice. -/
theorem C4_jitter_collapse (cfg : SCHEDULER_Config) (microSeconds : Nat)
    (sendOk : Nat → Bool) (s : SCHEDULER_Class)
    (hpc : InitialProcessCount cfg (GetCurrentSlotNumber cfg microSeconds s)
      s.nextSlotNumber = 2)
    (hlast : s.lastProcessCount = 1)
    (hslots : 2 ≤ cfg.schtblSlots)
    (hlag : 1 ≤ cfg.maxLagCount)
    (hcap : 1 ≤ cfg.maxSlotsPerWakeup) :
    ((ExecutePreLoop cfg microSeconds s).2 = 1) ∧
    ((ExecutePreLoop cfg microSeconds s).1.lastProcessCount = 2) ∧
    ((SCHEDULER_Execute cfg microSeconds sendOk s).slots =
      [s.nextSlotNumber]) ∧
    (∀ t : SCHEDULER_Class,
      t.lastProcessCount = 2 →
      InitialProcessCount cfg (GetCurrentSlotNumber cfg microSeconds t)
        t.nextSlotNumber = 2 →
      cfg.schtblSlots ≠ 2 →
      2 ≤ cfg.maxLagCount →
      2 ≤ cfg.maxSlotsPerWakeup →
      ((ExecutePreLoop cfg microSeconds t).2 = 2) ∧
      ((SCHEDULER_Execute cfg microSeconds sendOk t).slots.length = 2)) := by
  obtain ⟨e2, elast, ens, -, -, -, -, -, -⟩ :=
    executePreLoop_spec cfg microSeconds s _ _ _ _ _ _ rfl rfl rfl rfl rfl rfl
  rw [hpc, hlast] at e2 elast ens
  have hj1 : JitterProcessCount cfg 2 1 = 1 := rfl
  have hjl : JitterLastCount cfg 2 1 = 2 := rfl
  have hss : SameSlotProcessCount cfg 1 = 1 := by
    unfold SameSlotProcessCount
    rw [if_neg]
    simp only [beq_iff_eq]
    omega
  rw [hj1, hss] at e2 ens
  rw [hjl] at elast
  rw [if_neg (by omega : ¬ (1 > cfg.maxLagCount))] at e2 ens
  rw [if_neg (by omega : ¬ (1 > cfg.maxSlotsPerWakeup))] at e2
  refine ⟨e2, elast, ?_, ?_⟩
  · simp only [SCHEDULER_Execute]
    rw [e2, execLoop_slots_one, ens]
  · intro t ht2 htpc hts htlag htcap
    obtain ⟨t2, -, -, -, -, -, -, -, -⟩ :=
      executePreLoop_spec cfg microSeconds t _ _ _ _ _ _ rfl rfl rfl rfl rfl
        rfl
    rw [htpc, ht2] at t2
    have hj2 : JitterProcessCount cfg 2 2 = 2 := rfl
    have hss2 : SameSlotProcessCount cfg 2 = 2 := by
      unfold SameSlotProcessCount
      rw [if_neg]
      simp only [beq_iff_eq]
      omega
    rw [hj2, hss2] at t2
    rw [if_neg (by omega : ¬ (2 > cfg.maxLagCount))] at t2
    rw [if_neg (by omega : ¬ (2 > cfg.maxSlotsPerWakeup))] at t2
    refine ⟨t2, ?_⟩
    simp only [SCHEDULER_Execute]
    rw [t2, execLoop_slots_length]

/-- C4 witness: at the concrete jitter scenario (next slot 5, slot clock 6)
the collapsed wakeup processes one slot, and with recorded count 2 the
same scenario processes two slots. -/
theorem C4_jitter_collapse_witness :
    ((ExecutePreLoop Cfg100 0 JitterState).2 = 1) ∧
    ((ExecutePreLoop Cfg100 0 JitterStateB).2 = 2) :=
  ⟨(C4_jitter_collapse Cfg100 0 (fun _ => true) JitterState (by decide)
      (by decide) (by decide) (by decide) (by decide)).1,
    ((C4_jitter_collapse Cfg100 0 (fun _ => true) JitterState (by decide)
      (by decide) (by decide) (by decide) (by decide)).2.2.2 JitterStateB
      (by decide) (by decide) (by decide) (by decide) (by decide)).1⟩

/-- C5: when the process count after jitter correction and same-slot
zeroing exceeds the lag limit, the Reconciler increments SkippedSlots,
increments TablePassCount exactly when the skipped range crosses the
rollover (CurrentSlot < NextSlotNumber), jumps NextSlotNumber to
CurrentSlot, forces the process count to 1, and the wakeup processes
exactly the current slot. -/
theorem C5_lag_limit (cfg : SCHEDULER_Config) (microSeconds : Nat)
    (sendOk : Nat → Bool) (s : SCHEDULER_Class) (cur pc2 : Nat)
    (hcur : cur = GetCurrentSlotNumber cfg microSeconds s)
    (hpc2 : pc2 = SameSlotProcessCount cfg (JitterProcessCount cfg
      (InitialProcessCount cfg cur s.nextSlotNumber) s.lastProcessCount))
    (hlag : pc2 > cfg.maxLagCount)
    (hcap : 1 ≤ cfg.maxSlotsPerWakeup) :
    ((ExecutePreLoop cfg microSeconds s).2 = 1) ∧
    ((ExecutePreLoop cfg microSeconds s).1.skippedSlotsCount =
      s.skippedSlotsCount + 1) ∧
    ((ExecutePreLoop cfg microSeconds s).1.nextSlotNumber = cur) ∧
    ((ExecutePreLoop cfg microSeconds s).1.tablePassCount =
      s.tablePassCount + if cur < s.nextSlotNumber then 1 else 0) ∧
    ((SCHEDULER_Execute cfg microSeconds sendOk s).slots = [cur]) := by
  subst hpc2
  subst hcur
  obtain ⟨e2, -, ens, etp, eskip, -, -, -, -⟩ :=
    executePreLoop_spec cfg microSeconds s _ _ _ _ _ _ rfl rfl rfl rfl rfl rfl
  rw [if_pos hlag] at e2 ens
  rw [if_neg (by omega : ¬ (1 > cfg.maxSlotsPerWakeup))] at e2
  rw [if_pos hlag] at eskip
  simp only [hlag, true_and] at etp
  refine ⟨e2, eskip, ens, etp, ?_⟩
  simp only [SCHEDULER_Execute]
  rw [e2, execLoop_slots_one, ens]

/-- C5 witness: at a concrete state 61 slots behind the clock with a lag
limit of 50, the wakeup skips ahead and processes only the current slot. -/
theorem C5_lag_limit_witness :
    ((ExecutePreLoop Cfg100 0 LaggedState).2 = 1) ∧
    ((SCHEDULER_Execute Cfg100 0 (fun _ => true) LaggedState).slots =
      [60]) :=
  ⟨(C5_lag_limit Cfg100 0 (fun _ => true) LaggedState 60 61 (by decide)
      (by decide) (by decide) (by decide)).1,
    (C5_lag_limit Cfg100 0 (fun _ => true) LaggedState 60 61 (by decide)
      (by decide) (by decide) (by decide)).2.2.2.2⟩

/-- C9: an off-time (noisy) synchronization signal with IgnoreMajorFrame
clear increments ConsecutiveNoisyFrameCounter and latches IgnoreMajorFrame
exactly when the counter reaches the configured threshold; once set,
IgnoreMajorFrame is never cleared by the Synchronization Monitor, the
Minor-Frame Driver or the Wakeup Reconciler, and only SCHEDULER_ResetStatus
clears it. -/
theorem C9_ignore_major_frame_latch (cfg : SCHEDULER_Config)
    (flywheel : Bool) (microSeconds : Nat) (sendOk : Nat → Bool)
    (s : SCHEDULER_Class) :
    (s.ignoreMajorFrame = true →
      ((MajorFrameCallback cfg flywheel microSeconds s).ignoreMajorFrame =
        true) ∧
      ((MinorFrameCallback cfg microSeconds s).ignoreMajorFrame = true) ∧
      ((SCHEDULER_Execute cfg microSeconds sendOk s).st.ignoreMajorFrame =
        true)) ∧
    (flywheel = false →
      MajorFrameNoisy cfg s = true →
      s.ignoreMajorFrame = false →
      ((MajorFrameCallback cfg flywheel microSeconds
          s).consecutiveNoisyFrameCounter =
        s.consecutiveNoisyFrameCounter + 1) ∧
      ((MajorFrameCallback cfg flywheel microSeconds s).ignoreMajorFrame =
          true ↔
        cfg.maxNoisyMF ≤ s.consecutiveNoisyFrameCounter + 1)) ∧
    ((SCHEDULER_ResetStatus s).ignoreMajorFrame = false) := by
  refine ⟨?_, ?_, rfl⟩
  · intro hig
    refine ⟨?_, ?_, ?_⟩
    · simp only [MajorFrameCallback,
        apply_ite SCHEDULER_Class.ignoreMajorFrame]
      repeat' split
      all_goals simp_all
    · simp only [MinorFrameCallback, MinorFrameTail,
        apply_ite SCHEDULER_Class.ignoreMajorFrame]
      repeat' split
      all_goals simp_all
    · have hpre := (executePreLoop_spec cfg microSeconds s _ _ _ _ _ _
        rfl rfl rfl rfl rfl rfl).2.2.2.2.2.2.1
      simp only [SCHEDULER_Execute]
      rw [execLoop_ignore, hpre, hig]
  · intro hfly hnoisy hig
    subst hfly
    constructor
    · simp only [MajorFrameCallback, hnoisy,
        apply_ite SCHEDULER_Class.consecutiveNoisyFrameCounter]
      repeat' split
      all_goals simp_all
    · simp only [MajorFrameCallback, hnoisy,
        apply_ite SCHEDULER_Class.ignoreMajorFrame]
      repeat' split
      all_goals simp_all

/-- C9 witness: a noisy signal below the threshold increments the counter
without latching, and the latched ignore flag survives a major frame
callback. -/
theorem C9_ignore_major_frame_latch_witness :
    ((MajorFrameCallback Cfg1 false 0
        BaseState).consecutiveNoisyFrameCounter =
      BaseState.consecutiveNoisyFrameCounter + 1) ∧
    ((MajorFrameCallback Cfg1 false 0
        IgnoredFrameState).ignoreMajorFrame = true) :=
  ⟨((C9_ignore_major_frame_latch Cfg1 false 0 (fun _ => true)
      BaseState).2.1 rfl (by decide) rfl).1,
    ((C9_ignore_major_frame_latch Cfg1 false 0 (fun _ => true)
      IgnoredFrameState).1 rfl).1⟩
